import Mathlib

/-!
Shallow embedding of the onboarding subsystem of the Gluco Sahayak WhatsApp
bot (src/server.js).  The authoritative region is the "SIMPLE, RELIABLE
ONBOARDING SYSTEM": the field parsers (lines 532-779), the MESSAGES prompt
catalog (lines 370-526), the complete `handleOnboarding` variant carrying the
"CRITICAL FIX" early return (lines 880-1104), the duplicated older variant
fragment that still saves the session after the terminal delete
(lines 1105-1175), `savePatientData` (lines 1177-1211),
`checkOnboardingStatus` (lines 1213-1221) and the webhook dispatch
(lines 1860-1883).

Conventions of the embedding:
* JS strings are Lean `String`; `toLowerCase().trim()` is `.toLower.trim`
  (the non-ASCII characters appearing in the keyword lists have no case in
  either language, so ASCII-only lowercasing agrees with JS here).
* `String.prototype.includes(sub)` is `strIncludes` below.
* The regexes are hand-compiled: `/(\d+)/` is the first maximal ASCII digit
  run, `/\b(\d{6})\b/` is a word-boundary-delimited six-digit run and
  `/(\d+\.?\d*)/` is a digit run with an optional fractional part.  JS
  `parseFloat` is modelled exactly over `Rat` (the sub-ulp rounding of IEEE
  doubles is out of scope of this embedding).
* The per-user documents of the Mongo stores are modelled per user: all the
  store operations of the subsystem are keyed by the single `phone` of the
  incoming message, so a `Store` holds that user's optional OnboardingState
  document and optional Patient document.
* `async` store operations that may throw are driven by an `Env` of failure
  flags; a failing operation leaves the store unchanged and raises, which
  the `try`/`catch` blocks of the source turn into the generic error reply
  (or swallow, inside `savePatientData`).
-/

/-!
The JS string operations are implemented below on `List Char` with
structural recursion (the position-based loops of core `String` functions
do not reduce definitionally, which would make concrete instances of the
theorems unprovable without `native_decide`).  `String.data` converts a
literal to its character list.
-/

/-- Does `sub` occur at the head of `s`? -/
def leadMatch : List Char → List Char → Bool
  | [], _ => true
  | _ :: _, [] => false
  | a :: as, b :: bs => a = b && leadMatch as bs

/-- JS `String.prototype.includes` over character lists. -/
def containsChars : List Char → List Char → Bool
  | [], sub => sub.isEmpty
  | s@(_ :: rest), sub => leadMatch sub s || containsChars rest sub

/-- JS `String.prototype.includes` with a literal needle
(all the needles used by the source are nonempty). -/
def strIncludes (cs : List Char) (sub : String) : Bool :=
  containsChars cs sub.data

/-- JS `String.prototype.trim` (the arguments of the source are ASCII, where
JS and Lean whitespace coincide). -/
def trimChars (cs : List Char) : List Char :=
  ((cs.dropWhile Char.isWhitespace).reverse.dropWhile Char.isWhitespace).reverse

/-- JS `message.toLowerCase().trim()` (ASCII lowercasing; the non-ASCII
characters of the keyword lists have no case in either language). -/
def lowerTrim (s : String) : List Char :=
  trimChars (s.data.map Char.toLower)

/-- One splitting step bounded by fuel (one unit per character consumed);
`sep` is nonempty for every separator the source uses. -/
def splitGo (sep : List Char) : Nat → List Char → List Char → List (List Char)
  | _, [], acc => [acc.reverse]
  | 0, rest, acc => [acc.reverse ++ rest]
  | fuel + 1, c :: cs, acc =>
    if leadMatch sep (c :: cs) then
      acc.reverse :: splitGo sep fuel (List.drop sep.length (c :: cs)) []
    else
      splitGo sep fuel cs (c :: acc)

/-- JS `String.prototype.split` with a string separator: left-to-right,
non-overlapping. -/
def splitOnChars (s sep : List Char) : List (List Char) :=
  splitGo sep s.length s []

/-- JS `String.prototype.replace` with a string pattern: replace the first
occurrence only. -/
def replaceFirst (pat repl : List Char) : List Char → List Char
  | [] => []
  | c :: cs =>
    if leadMatch pat (c :: cs) then repl ++ List.drop pat.length (c :: cs)
    else c :: replaceFirst pat repl cs

/-- JS `s.replace(pat, repl)` on strings (first occurrence). -/
def jsReplace (s pat repl : String) : String :=
  String.mk (replaceFirst pat.data repl.data s.data)

/-- First maximal run of ASCII digits in a character list,
as matched by the JS regex `/(\d+)/`. -/
def firstDigitRun : List Char → Option (List Char)
  | [] => none
  | c :: cs =>
    if c.isDigit then some (c :: cs.takeWhile Char.isDigit)
    else firstDigitRun cs

/-- Numeric value of a digit run (JS `parseInt` on a digit-only string). -/
def digitsToNat (ds : List Char) : Nat :=
  ds.foldl (fun n c => n * 10 + (c.toNat - 48)) 0

/-- src/server.js:532 `parseLanguage` — menu number or keyword, to a
language code string. -/
def parseLanguage (message : String) : Option String :=
  let lower := lowerTrim message
  if lower = "1".data || strIncludes lower "english" || lower = "eng".data || lower = "en".data then
    some "en"
  else if lower = "2".data || strIncludes lower "hindi" || strIncludes lower "हिंदी" || lower = "hi".data then
    some "hi"
  else if lower = "3".data || strIncludes lower "kannada" || strIncludes lower "ಕನ್ನಡ" || lower = "kn".data then
    some "kn"
  else
    none

/-- Capitalisation of one word as in `parseName`:
`word.charAt(0).toUpperCase() + word.slice(1).toLowerCase()`. -/
def capitalizeWord : List Char → List Char
  | [] => []
  | c :: rest => c.toUpper :: rest.map Char.toLower

/-- src/server.js:553 `parseName` — any non-empty text up to 100 characters,
title-cased word by word. -/
def parseName (message : String) : Option String :=
  let cleaned := trimChars message.data
  if cleaned.length = 0 then none
  else if cleaned.length > 100 then none
  else some (String.mk (List.intercalate [' '] ((splitOnChars cleaned [' ']).map capitalizeWord)))

/-- src/server.js:566 `parseAge` — first number in the message, 1..120. -/
def parseAge (message : String) : Option Nat :=
  match firstDigitRun (trimChars message.data) with
  | none => none
  | some ds =>
    let age := digitsToNat ds
    if age < 1 ∨ age > 120 then none else some age

/-- src/server.js:581 `parseGender`. -/
def parseGender (message : String) : Option String :=
  let lower := lowerTrim message
  if lower = "1".data || lower = "male".data || lower = "m".data || lower = "man".data then
    some "Male"
  else if lower = "2".data || lower = "female".data || lower = "f".data || lower = "woman".data || lower = "w".data then
    some "Female"
  else
    none

/-- src/server.js:597 `parsePhone` — strip non-digits; accept a 10-digit
local mobile number (leading digit 6-9) prefixed with +91, or an
already-prefixed 12-digit form. -/
def parsePhone (message : String) : Option String :=
  let digits := message.data.filter Char.isDigit
  if digits.length = 10 && (match digits with
      | c :: _ => decide ('6' ≤ c) && decide (c ≤ '9')
      | [] => false) then
    some (String.mk ('+' :: '9' :: '1' :: digits))
  else if digits.length = 12 && decide (digits.take 2 = ['9', '1']) then
    some (String.mk ('+' :: digits))
  else
    none

/-- JS regex word character `\w = [A-Za-z0-9_]`. -/
def isWordChar (c : Char) : Bool :=
  c.isAlphanum || c = '_'

/-- Scan for the first match of `/\b(\d{6})\b/`: six digits preceded and
followed by a word boundary.  `prev` is the character before the current
position (none at the start of the string). -/
def findPin (prev : Option Char) : List Char → Option (List Char)
  | [] => none
  | c :: cs =>
    if c.isDigit
        && (match prev with | none => true | some p => !isWordChar p)
        && decide ((cs.take 5).length = 5) && (cs.take 5).all Char.isDigit
        && (match cs.drop 5 with | [] => true | d :: _ => !isWordChar d) then
      some (c :: cs.take 5)
    else
      findPin (some c) cs

/-- src/server.js:614 `parsePincode` — first word-bounded 6-digit run
anywhere in the text. -/
def parsePincode (message : String) : Option String :=
  (findPin none message.data).map String.mk

/-- src/server.js:622 `parseConsent`. -/
def parseConsent (message : String) : Option Bool :=
  let lower := lowerTrim message
  if lower = "1".data || lower = "yes".data || lower = "yeah".data || lower = "ok".data ||
      lower = "y".data || strIncludes lower "हां" || strIncludes lower "ಹೌದು" then
    some true
  else if lower = "2".data || lower = "no".data || lower = "nope".data || lower = "n".data ||
      strIncludes lower "नहीं" || strIncludes lower "ಇಲ್ಲ" then
    some false
  else
    none

/-- src/server.js:640 `parseDiabetesType`. -/
def parseDiabetesType (message : String) : Option String :=
  let lower := lowerTrim message
  if lower = "1".data || strIncludes lower "type 1" || strIncludes lower "type1" then
    some "Type 1"
  else if lower = "2".data || strIncludes lower "type 2" || strIncludes lower "type2" then
    some "Type 2"
  else if lower = "3".data || strIncludes lower "gestational" then
    some "Gestational"
  else
    none

/-- src/server.js:658 `parseDuration` — first number in the message, 0..100
(the `years < 0` guard of the source is vacuous on digit runs). -/
def parseDuration (message : String) : Option Nat :=
  match firstDigitRun message.data with
  | none => none
  | some ds =>
    let years := digitsToNat ds
    if years > 100 then none else some years

/-- src/server.js:670 `parseMedicationType`. -/
def parseMedicationType (message : String) : Option String :=
  let lower := lowerTrim message
  if lower = "1".data || strIncludes lower "insulin" then
    some "Insulin"
  else if lower = "2".data || strIncludes lower "tablet" then
    some "Tablets"
  else if lower = "3".data || strIncludes lower "both" || strIncludes lower "दोनों" then
    some "Both"
  else if lower = "4".data || strIncludes lower "none" || strIncludes lower "नहीं" || strIncludes lower "ಇಲ್ಲ" then
    some "None"
  else
    none

/-- Split by the alternation `/[,\n]|and|और|ಮತ್ತು/` of `parseMedicineNames`:
the separators are pairwise non-overlapping, so iterated splitting agrees
with the left-to-right regex split. -/
def splitMedicineSeparators (message : String) : List (List Char) :=
  ((((splitOnChars message.data ",".data).flatMap
      (fun p => splitOnChars p "\n".data)).flatMap
      (fun p => splitOnChars p "and".data)).flatMap
      (fun p => splitOnChars p "और".data)).flatMap
      (fun p => splitOnChars p "ಮತ್ತು".data)

/-- src/server.js:692 `parseMedicineNames` — explicit none/unknown phrases
give `["None"]`; otherwise the comma/and-separated fragments, trimmed, kept
when non-empty and shorter than 50 characters; `["None"]` when nothing
survives.  Total: never returns the invalid sentinel. -/
def parseMedicineNames (message : String) : List String :=
  let lower := lowerTrim message
  if lower = "none".data || strIncludes lower "don\x27t know" || strIncludes lower "नहीं" ||
      strIncludes lower "पता नहीं" || strIncludes lower "ತಿಳಿದಿಲ್ಲ" then
    ["None"]
  else
    let medicines := ((splitMedicineSeparators message).map trimChars).filter
      (fun m => m.length > 0 && m.length < 50)
    if medicines.length = 0 then ["None"] else medicines.map String.mk

/-- src/server.js:712 `parseDiet`. -/
def parseDiet (message : String) : Option String :=
  let lower := lowerTrim message
  if lower = "1".data || strIncludes lower "veg" || strIncludes lower "शाकाहारी" || strIncludes lower "ಶಾಕಾಹಾರಿ" then
    some "Veg"
  else if lower = "2".data || strIncludes lower "non" || strIncludes lower "मांसाहारी" || strIncludes lower "ಮಾಂಸಾಹಾರಿ" then
    some "Non-Veg"
  else if lower = "3".data || strIncludes lower "egg" then
    some "Eggetarian"
  else
    none

/-- The `conditions` array built by `parseComorbidities`: one keyword scan
per recognised condition tag. -/
def comorbidityConditions (lower : List Char) : List String :=
  (if strIncludes lower "bp" || strIncludes lower "pressure" || strIncludes lower "hypertension" then ["BP"] else []) ++
  (if strIncludes lower "cholesterol" || strIncludes lower "lipid" then ["Cholesterol"] else []) ++
  (if strIncludes lower "heart" || strIncludes lower "cardiac" || strIncludes lower "दिल" then ["Heart"] else []) ++
  (if strIncludes lower "kidney" || strIncludes lower "renal" || strIncludes lower "गुर्दा" then ["Kidney"] else []) ++
  (if strIncludes lower "thyroid" then ["Thyroid"] else [])

/-- src/server.js:730 `parseComorbidities` — keyword scan into a fixed list
of condition tags; `["None"]` for explicit noes and when nothing matches.
Total: never returns the invalid sentinel. -/
def parseComorbidities (message : String) : List String :=
  let lower := lowerTrim message
  if lower = "none".data || strIncludes lower "नहीं" || strIncludes lower "ಇಲ್ಲ" ||
      lower = "no".data || lower = "nil".data then
    ["None"]
  else
    let conditions := comorbidityConditions lower
    if conditions.length > 0 then conditions else ["None"]

/-- First match of `/(\d+\.?\d*)/` as an exact rational: the first maximal
digit run, optionally followed by a dot and a further digit run
(`parseFloat` of the matched text). -/
def findDecimal : List Char → Option Rat
  | [] => none
  | c :: cs =>
    if c.isDigit then
      let intPart := c :: cs.takeWhile Char.isDigit
      let rest := cs.dropWhile Char.isDigit
      let fracPart :=
        match rest with
        | '.' :: cs2 => cs2.takeWhile Char.isDigit
        | _ => []
      some ((digitsToNat intPart : Rat) + (digitsToNat fracPart : Rat) / ((10 : Rat) ^ fracPart.length))
    else
      findDecimal cs

/-- src/server.js:760 `parseHbA1c` — don\x27t-know phrasing gives `none`
(stored by the hba1c step as the unknown value); otherwise the first decimal
number when it lies in the range 3..20 and `none` when out of range or
absent.  Note the source returns the same `null` for the unknown answer and
for unparseable input. -/
def parseHbA1c (message : String) : Option Rat :=
  let lower := lowerTrim message
  if strIncludes lower "don\x27t know" || strIncludes lower "पता नहीं" ||
      strIncludes lower "ತಿಳಿದಿಲ್ಲ" || lower = "dk".data || lower = "unknown".data then
    none
  else
    match findDecimal message.data with
    | none => none
    | some value =>
      if value < 3 ∨ value > 20 then none else some value

/-! ### The MESSAGES prompt catalog (src/server.js:370-526).

Each entry is a function of the language code; the source indexes
`MESSAGES.key[lang]` where `lang` is always a value produced by
`parseLanguage` (one of "en", "hi", "kn") or the "en" default, so the
final `else` branch below (the "en" text) is only ever taken at "en". -/

/-- `MESSAGES.welcome`. -/
def MESSAGES_welcome (lang : String) : String :=
  if lang = "hi" then
    "🙏 Gluco Sahayak में स्वागत!\n\nमैं आपका diabetes assistant हूं।\n\nकृपया अपनी भाषा चुनें:\n1️⃣ English\n2️⃣ हिंदी (Hindi)\n3️⃣ ಕನ್ನಡ (Kannada)\n\n1, 2, या 3 भेजें"
  else if lang = "kn" then
    "🙏 Gluco Sahayak ಗೆ ಸ್ವಾಗತ!\n\nನಾನು ನಿಮ್ಮ diabetes assistant.\n\nದಯವಿಟ್ಟು ಭಾಷೆ ಆಯ್ಕೆಮಾಡಿ:\n1️⃣ English\n2️⃣ हिंदी (Hindi)\n3️⃣ ಕನ್ನಡ (Kannada)\n\n1, 2, ಅಥವಾ 3 ಕಳುಹಿಸಿ"
  else
    "🙏 Welcome to Gluco Sahayak!\n\nI\x27m your diabetes assistant.\n\nPlease select your language:\n1️⃣ English\n2️⃣ हिंदी (Hindi)\n3️⃣ ಕನ್ನಡ (Kannada)\n\nReply with 1, 2, or 3"

/-- `MESSAGES.ask_name`. -/
def MESSAGES_ask_name (lang : String) : String :=
  if lang = "hi" then "बढ़िया! 😊 आपका पूरा नाम क्या है?"
  else if lang = "kn" then "ಚೆನ್ನಾಗಿದೆ! 😊 ನಿಮ್ಮ ಪೂರ್ಣ ಹೆಸರು?"
  else "Great! 😊 What\x27s your full name?"

/-- `MESSAGES.ask_age` (contains the placeholder that the handler fills with
the patient name). -/
def MESSAGES_ask_age (lang : String) : String :=
  if lang = "hi" then "\x7bname\x7d जी, मिलकर खुशी हुई! 👋\n\nआपकी उम्र क्या है?"
  else if lang = "kn" then "\x7bname\x7d, ಭೇಟಿಯಾಗಿ ಸಂತೋಷ! 👋\n\nನಿಮ್ಮ ವಯಸ್ಸು?"
  else "Nice to meet you \x7bname\x7d! 👋\n\nHow old are you?"

/-- `MESSAGES.ask_gender`. -/
def MESSAGES_ask_gender (lang : String) : String :=
  if lang = "hi" then "बढ़िया! आप:\n\n1️⃣ पुरुष (Male)\n2️⃣ महिला (Female)\n\n1 या 2 भेजें"
  else if lang = "kn" then "ಚೆನ್ನಾಗಿದೆ! ನೀವು:\n\n1️⃣ ಪುರುಷ (Male)\n2️⃣ ಮಹಿಳೆ (Female)\n\n1 ಅಥವಾ 2"
  else "Perfect! Are you:\n\n1️⃣ Male\n2️⃣ Female\n\nReply with 1 or 2"

/-- `MESSAGES.ask_emergency`. -/
def MESSAGES_ask_emergency (lang : String) : String :=
  if lang = "hi" then "समझ गया! 📱\n\nEmergency contact number?\n(10 अंक, जैसे 9876543210)"
  else if lang = "kn" then "ಅರ್ಥವಾಯಿತು! 📱\n\nEmergency contact number?\n(10 digits, ಉದಾ: 9876543210)"
  else "Got it! 📱\n\nEmergency contact number?\n(10 digits, e.g., 9876543210)"

/-- `MESSAGES.ask_pincode`. -/
def MESSAGES_ask_pincode (lang : String) : String :=
  if lang = "hi" then "धन्यवाद! 📍\n\nआपका pincode?\n(6 अंक)"
  else if lang = "kn" then "ಧನ್ಯವಾದಗಳು! 📍\n\nನಿಮ್ಮ pincode?\n(6 digits)"
  else "Thank you! 📍\n\nYour area pincode?\n(6 digits)"

/-- `MESSAGES.ask_consent`. -/
def MESSAGES_ask_consent (lang : String) : String :=
  if lang = "hi" then "लगभग हो गया! 🎯\n\nक्या diabetes care के लिए सहमति है?\n\n1️⃣ हां\n2️⃣ नहीं\n\n1 या 2"
  else if lang = "kn" then "ಬಹುತೇಕ ಮುಗಿಯಿತು! 🎯\n\nDiabetes care ಗೆ ಒಪ್ಪಿಗೆ?\n\n1️⃣ ಹೌದು\n2️⃣ ಇಲ್ಲ\n\n1 ಅಥವಾ 2"
  else "Almost there! 🎯\n\nDo you consent to diabetes care support?\n\n1️⃣ Yes\n2️⃣ No\n\nReply 1 or 2"

/-- `MESSAGES.ask_diabetes_type`. -/
def MESSAGES_ask_diabetes_type (lang : String) : String :=
  if lang = "hi" then "बढ़िया! 🏥\n\nकिस प्रकार का diabetes?\n\n1️⃣ Type 1\n2️⃣ Type 2\n3️⃣ Gestational\n\n1, 2, या 3"
  else if lang = "kn" then "ಉತ್ತಮ! 🏥\n\nಯಾವ diabetes?\n\n1️⃣ Type 1\n2️⃣ Type 2\n3️⃣ Gestational\n\n1, 2, ಅಥವಾ 3"
  else "Excellent! 🏥\n\nWhat type of diabetes?\n\n1️⃣ Type 1\n2️⃣ Type 2\n3️⃣ Gestational\n\nReply 1, 2, or 3"

/-- `MESSAGES.ask_duration`. -/
def MESSAGES_ask_duration (lang : String) : String :=
  if lang = "hi" then "समझ गया! ⏱️\n\nकितने साल से diabetes है?\n(सिर्फ number, जैसे 5)"
  else if lang = "kn" then "ಅರ್ಥವಾಯಿತು! ⏱️\n\nDiabetes ಎಷ್ಟು ವರ್ಷಗಳು?\n(Number, ಉದಾ: 5)"
  else "Noted! ⏱️\n\nHow many years have you had diabetes?\n(Just the number, e.g., 5)"

/-- `MESSAGES.ask_medication`. -/
def MESSAGES_ask_medication (lang : String) : String :=
  if lang = "hi" then "ठीक है! 💊\n\nकौन सी medicine लेते हैं?\n\n1️⃣ Insulin\n2️⃣ Tablets\n3️⃣ दोनों\n4️⃣ कोई नहीं\n\n1, 2, 3, या 4"
  else if lang = "kn" then "ಅರ್ಥವಾಯಿತು! 💊\n\nಯಾವ medicine?\n\n1️⃣ Insulin\n2️⃣ Tablets\n3️⃣ Both\n4️⃣ None\n\n1, 2, 3, ಅಥವಾ 4"
  else "Got it! 💊\n\nWhat medication do you take?\n\n1️⃣ Insulin\n2️⃣ Tablets\n3️⃣ Both\n4️⃣ None\n\nReply 1, 2, 3, or 4"

/-- `MESSAGES.ask_medicine_names`. -/
def MESSAGES_ask_medicine_names (lang : String) : String :=
  if lang = "hi" then "बढ़िया! 📝\n\nMedicine के नाम?\n(जैसे Metformin, Glimepiride)\n\n\"none\" या \"पता नहीं\" लिखें"
  else if lang = "kn" then "ಚೆನ್ನಾಗಿದೆ! 📝\n\nMedicine ಹೆಸರುಗಳು?\n(ಉದಾ: Metformin)\n\n\"none\" ಅಥವಾ \"don\x27t know\""
  else "Perfect! 📝\n\nMedicine names?\n(e.g., Metformin, Glimepiride)\n\nType \"none\" or \"don\x27t know\" if unsure"

/-- `MESSAGES.ask_diet`. -/
def MESSAGES_ask_diet (lang : String) : String :=
  if lang = "hi" then "धन्यवाद! 🍽️\n\nआहार?\n\n1️⃣ शाकाहारी (Veg)\n2️⃣ मांसाहारी (Non-Veg)\n3️⃣ अंडा खाते हैं\n\n1, 2, या 3"
  else if lang = "kn" then "ಧನ್ಯವಾದ! 🍽️\n\nDiet?\n\n1️⃣ ಶಾಕಾಹಾರಿ (Veg)\n2️⃣ ಮಾಂಸಾಹಾರಿ (Non-Veg)\n3️⃣ Eggetarian\n\n1, 2, ಅಥವಾ 3"
  else "Thank you! 🍽️\n\nDiet preference?\n\n1️⃣ Vegetarian\n2️⃣ Non-Vegetarian\n3️⃣ Eggetarian\n\nReply 1, 2, or 3"

/-- `MESSAGES.ask_comorbidities`. -/
def MESSAGES_ask_comorbidities (lang : String) : String :=
  if lang = "hi" then "लगभग पूरा! 🎯\n\nकोई और बीमारी?\n(जैसे BP, Cholesterol, दिल)\n\n\"none\" लिखें अगर नहीं"
  else if lang = "kn" then "ಬಹುತೇಕ ಮುಗಿಯಿತು! 🎯\n\nಇನ್ನೇನಾದರೂ?\n(ಉದಾ: BP, Cholesterol)\n\n\"none\" ಎಂದರೆ ಇಲ್ಲ"
  else "Almost done! 🎯\n\nAny other health issues?\n(e.g., BP, Cholesterol, Heart)\n\nType \"none\" if none"

/-- `MESSAGES.ask_hba1c`. -/
def MESSAGES_ask_hba1c (lang : String) : String :=
  if lang = "hi" then "आखिरी सवाल! 🔬\n\nLast HbA1c?\n(जैसे 7.5 या 8)\n\n\"पता नहीं\" अगर नहीं पता"
  else if lang = "kn" then "ಕೊನೆಯ ಪ್ರಶ್ನೆ! 🔬\n\nLast HbA1c?\n(ಉದಾ: 7.5 ಅಥವಾ 8)\n\n\"don\x27t know\" ಎಂದರೆ ತಿಳಿದಿಲ್ಲ"
  else "Last question! 🔬\n\nLast HbA1c value?\n(e.g., 7.5 or 8)\n\nType \"don\x27t know\" if you don\x27t know"

/-- `MESSAGES.complete` (contains the name placeholder). -/
def MESSAGES_complete (lang : String) : String :=
  if lang = "hi" then
    "✅ हो गया \x7bname\x7d जी!\n\nProfile तैयार! 🎉\n\nमैं मदद करूंगा:\n📊 Glucose tracking\n💊 Medicine reminder\n🍽️ Diet advice\n🚨 Emergency alert\n🎙️ Voice messages\n\nतैयार! Current glucose reading?"
  else if lang = "kn" then
    "✅ ಮುಗಿಯಿತು \x7bname\x7d!\n\nProfile ready! 🎉\n\nನಾನು ಸಹಾಯ:\n📊 Glucose tracking\n💊 Medicine reminder\n🍽️ Diet advice\n🚨 Emergency alert\n🎙️ Voice messages\n\nತಯಾರು! Current glucose reading?"
  else
    "✅ All set, \x7bname\x7d!\n\nYour profile is complete! 🎉\n\nI\x27ll help you with:\n📊 Glucose tracking\n💊 Medicine reminders\n🍽️ Diet advice\n🚨 Emergency alerts\n🎙️ Voice messages (send audio!)\n\nReady to start! What\x27s your current glucose reading?"

/-- `MESSAGES.error_retry` — the generic notice prefixed to every re-prompt. -/
def MESSAGES_error_retry (lang : String) : String :=
  if lang = "hi" then "माफ़ करें, समझ नहीं आया। फिर से भेजें! 🙏"
  else if lang = "kn" then "ಕ್ಷಮಿಸಿ, ಅರ್ಥವಾಗಲಿಲ್ಲ. ಮತ್ತೆ ಕಳುಹಿಸಿ! 🙏"
  else "Sorry, I didn\x27t understand. Please try again! 🙏"

/-- The name placeholder of `ask_age` and `complete`; the source fills it
with `.replace` (JS replace-first; the placeholder occurs once). -/
def namePlaceholder : String := "\x7bname\x7d"

/-! ### Data model -/

/-- The step names dispatched by the `switch` of `handleOnboarding`
(the `currentStep` field of an OnboardingState document), plus the
`completed` value written by the duplicate variant; in the source any step
string other than the thirteen question steps falls into the `default`
branch, which in the embedding is the `completed` case. -/
inductive Step where
  | language
  | name
  | age
  | gender
  | emergency_contact
  | pincode
  | consent
  | diabetes_type
  | duration
  | medication_type
  | medicine_names
  | diet
  | comorbidities
  | hba1c
  | completed
deriving DecidableEq, Repr

/-- The `data` map of an OnboardingState document, with one optional slot
per key the handler ever writes (`none` = key absent from the map).
`last_hba1c` holds an `Option Rat` because the handler stores the raw
`parseHbA1c` result, which is `null` for an unknown value. -/
structure SessionData where
  language_pref : Option String := none
  full_name : Option String := none
  age : Option Nat := none
  gender : Option String := none
  emergency_contact : Option String := none
  pincode : Option String := none
  consent_given : Option Bool := none
  diabetes_type : Option String := none
  duration_years : Option Nat := none
  medication_type : Option String := none
  current_meds : Option (List String) := none
  diet_preference : Option String := none
  comorbidities : Option (List String) := none
  last_hba1c : Option (Option Rat) := none
deriving DecidableEq, Repr

/-- An OnboardingState document (one per user in onboarding). -/
structure OnboardingState where
  phone : String
  currentStep : Step
  data : SessionData
  lastUpdated : Nat
deriving DecidableEq, Repr

/-- A Patient document as assembled by `savePatientData`. -/
structure Patient where
  phone : String
  language_pref : String
  full_name : Option String
  age : Option Nat
  gender : Option String
  emergency_contact : Option String
  pincode : Option String
  consent_given : Option Bool
  diabetes_type : Option String
  duration_years : Nat
  medication_type : Option String
  current_meds : List String
  comorbidities : List String
  last_hba1c : Option Rat
  diet_preference : Option String
  onboarding_completed : Bool
  onboarding_step : Step
deriving DecidableEq, Repr

/-- The documents of the two Mongo collections belonging to one user
(every store operation of the subsystem is keyed by that user's phone). -/
structure Store where
  session : Option OnboardingState
  patient : Option Patient
deriving DecidableEq, Repr

/-- Failure oracle for the `await`ed store operations: a `true` flag makes
the corresponding operation throw without mutating the store. -/
structure Env where
  findFails : Bool
  createFails : Bool
  saveFails : Bool
  upsertFails : Bool
  deleteFails : Bool
deriving DecidableEq, Repr

/-- All store operations succeed. -/
def envOk : Env := ⟨false, false, false, false, false⟩

/-- The value `handleOnboarding` returns to the webhook layer. -/
structure Reply where
  response : String
  completed : Bool
deriving DecidableEq, Repr

/-- The reply produced by the `catch` block of `handleOnboarding`. -/
def errorReply : Reply :=
  ⟨"Sorry, an error occurred. Please type \x27start\x27 to begin again.", false⟩

/-! ### savePatientData and the orchestrator -/

/-- The `patientData` object assembled by `savePatientData`
(src/server.js:1179-1197).  The `||` fallbacks of the source translate to
`getD`: for the array fields this is exact (every JS array, even `[]`, is
truthy), for `duration_years` the stored value `0` makes `0 || 0 = 0` agree
with `getD`, and `language_pref` is only ever a `parseLanguage` result, never
the empty string. -/
def buildPatient (phone : String) (d : SessionData) : Patient where
  phone := phone
  language_pref := d.language_pref.getD "en"
  full_name := d.full_name
  age := d.age
  gender := d.gender
  emergency_contact := d.emergency_contact
  pincode := d.pincode
  consent_given := d.consent_given
  diabetes_type := d.diabetes_type
  duration_years := d.duration_years.getD 0
  medication_type := d.medication_type
  current_meds := d.current_meds.getD ["None"]
  comorbidities := d.comorbidities.getD ["None"]
  last_hba1c := d.last_hba1c.getD none
  diet_preference := d.diet_preference
  onboarding_completed := true
  onboarding_step := .completed

/-- src/server.js:1177 `savePatientData` — upsert the Patient keyed by
phone, then delete the OnboardingState.  Its `catch` swallows every store
error, so a failing upsert skips the delete and a failing delete leaves the
already-written patient, and in both cases the caller observes success. -/
def savePatientData (env : Env) (phone : String) (d : SessionData) (st : Store) : Store :=
  if env.upsertFails then st
  else
    let st1 : Store := { st with patient := some (buildPatient phone d) }
    if env.deleteFails then st1 else { st1 with session := none }

/-- The `switch (state.currentStep)` of `handleOnboarding`
(src/server.js:903-1076): from the current step, the language, the
accumulated data and the inbound message, compute the updated data map, the
`nextStep` variable and the outgoing response.  The store side effect of the
hba1c case (its `savePatientData` call) is performed by `handleOnboarding`
itself. -/
def stepSwitch (step : Step) (lang : String) (d : SessionData) (message : String) :
    SessionData × Step × String :=
  match step with
  | .language =>
    match parseLanguage message with
    | some parsedLang =>
      ({ d with language_pref := some parsedLang }, .name, MESSAGES_ask_name parsedLang)
    | none =>
      (d, .language, MESSAGES_error_retry lang ++ "\n\n" ++ MESSAGES_welcome lang)
  | .name =>
    match parseName message with
    | some parsedName =>
      ({ d with full_name := some parsedName }, .age,
        jsReplace (MESSAGES_ask_age lang) namePlaceholder parsedName)
    | none =>
      (d, .name, MESSAGES_error_retry lang ++ "\n\n" ++ MESSAGES_ask_name lang)
  | .age =>
    match parseAge message with
    | some parsedAge =>
      ({ d with age := some parsedAge }, .gender, MESSAGES_ask_gender lang)
    | none =>
      (d, .age, MESSAGES_error_retry lang ++ "\n\n" ++
        jsReplace (MESSAGES_ask_age lang) namePlaceholder (d.full_name.getD ""))
  | .gender =>
    match parseGender message with
    | some parsedGender =>
      ({ d with gender := some parsedGender }, .emergency_contact, MESSAGES_ask_emergency lang)
    | none =>
      (d, .gender, MESSAGES_error_retry lang ++ "\n\n" ++ MESSAGES_ask_gender lang)
  | .emergency_contact =>
    match parsePhone message with
    | some parsedPhone =>
      ({ d with emergency_contact := some parsedPhone }, .pincode, MESSAGES_ask_pincode lang)
    | none =>
      (d, .emergency_contact, MESSAGES_error_retry lang ++ "\n\n" ++ MESSAGES_ask_emergency lang)
  | .pincode =>
    match parsePincode message with
    | some parsedPincode =>
      ({ d with pincode := some parsedPincode }, .consent, MESSAGES_ask_consent lang)
    | none =>
      (d, .pincode, MESSAGES_error_retry lang ++ "\n\n" ++ MESSAGES_ask_pincode lang)
  | .consent =>
    match parseConsent message with
    | some parsedConsent =>
      ({ d with consent_given := some parsedConsent }, .diabetes_type,
        MESSAGES_ask_diabetes_type lang)
    | none =>
      (d, .consent, MESSAGES_error_retry lang ++ "\n\n" ++ MESSAGES_ask_consent lang)
  | .diabetes_type =>
    match parseDiabetesType message with
    | some parsedType =>
      ({ d with diabetes_type := some parsedType }, .duration, MESSAGES_ask_duration lang)
    | none =>
      (d, .diabetes_type, MESSAGES_error_retry lang ++ "\n\n" ++ MESSAGES_ask_diabetes_type lang)
  | .duration =>
    match parseDuration message with
    | some parsedDuration =>
      ({ d with duration_years := some parsedDuration }, .medication_type,
        MESSAGES_ask_medication lang)
    | none =>
      (d, .duration, MESSAGES_error_retry lang ++ "\n\n" ++ MESSAGES_ask_duration lang)
  | .medication_type =>
    match parseMedicationType message with
    | some parsedMedType =>
      if parsedMedType = "None" then
        ({ d with medication_type := some parsedMedType, current_meds := some ["None"] },
          .diet, MESSAGES_ask_diet lang)
      else
        ({ d with medication_type := some parsedMedType }, .medicine_names,
          MESSAGES_ask_medicine_names lang)
    | none =>
      (d, .medication_type, MESSAGES_error_retry lang ++ "\n\n" ++ MESSAGES_ask_medication lang)
  | .medicine_names =>
    ({ d with current_meds := some (parseMedicineNames message) }, .diet, MESSAGES_ask_diet lang)
  | .diet =>
    match parseDiet message with
    | some parsedDiet =>
      ({ d with diet_preference := some parsedDiet }, .comorbidities,
        MESSAGES_ask_comorbidities lang)
    | none =>
      (d, .diet, MESSAGES_error_retry lang ++ "\n\n" ++ MESSAGES_ask_diet lang)
  | .comorbidities =>
    ({ d with comorbidities := some (parseComorbidities message) }, .hba1c,
      MESSAGES_ask_hba1c lang)
  | .hba1c =>
    let d2 := { d with last_hba1c := some (parseHbA1c message) }
    (d2, .completed,
      jsReplace (MESSAGES_complete lang) namePlaceholder (d2.full_name.getD "friend"))
  | .completed =>
    (d, .language, "Something went wrong. Type \x27start\x27 to begin again.")

/-- src/server.js:880-1104 `handleOnboarding`, the variant with the
completed-step early return ("CRITICAL FIX").  An unknown user gets a fresh
session at the `language` step and the welcome prompt without the message
being consumed; otherwise the current step is processed by `stepSwitch`,
with the hba1c case additionally committing via `savePatientData`; when
`nextStep` is `completed` the handler returns before any session write,
and otherwise the session document is saved with the new step, data and
timestamp.  Store failures raised by `findOne`, `create` or `save` reach
the `catch`, which returns `errorReply` (failures inside `savePatientData`
are swallowed there and never reach this `catch`). -/
def handleOnboarding (env : Env) (now : Nat) (phone message : String) (st : Store) :
    Store × Reply :=
  if env.findFails then (st, errorReply)
  else
    match st.session with
    | none =>
      if env.createFails then (st, errorReply)
      else
        ({ st with session := some ⟨phone, .language, {}, now⟩ },
          ⟨MESSAGES_welcome "en", false⟩)
    | some state =>
      let lang := state.data.language_pref.getD "en"
      let r := stepSwitch state.currentStep lang state.data message
      let st1 := if state.currentStep = .hba1c then savePatientData env phone r.1 st else st
      if r.2.1 = .completed then
        (st1, ⟨r.2.2, true⟩)
      else if env.saveFails then
        (st1, errorReply)
      else
        ({ st1 with session := some ⟨state.phone, r.2.1, r.1, now⟩ },
          ⟨r.2.2, r.2.1 = .completed⟩)

/-- src/server.js:785-879 and 1105-1175, the duplicated older
`handleOnboarding` variant: identical up to the switch, but with no
completed-step early return — after the hba1c case has run
`savePatientData` (which deleted the OnboardingState document) it still
executes `state.save()`.  `save()` on an already-fetched Mongoose document
issues an `updateOne` keyed by `_id` with no upsert: it rewrites the
document when it still exists and throws `DocumentNotFoundError` when it
was deleted (Mongoose ≥ 5; the schema's `Map` data type requires ≥ 5.1) —
it never re-creates the document.  The thrown error reaches the outer
`catch`, which returns the generic error reply. -/
def handleOnboardingDup (env : Env) (now : Nat) (phone message : String) (st : Store) :
    Store × Reply :=
  if env.findFails then (st, errorReply)
  else
    match st.session with
    | none =>
      if env.createFails then (st, errorReply)
      else
        ({ st with session := some ⟨phone, .language, {}, now⟩ },
          ⟨MESSAGES_welcome "en", false⟩)
    | some state =>
      let lang := state.data.language_pref.getD "en"
      let r := stepSwitch state.currentStep lang state.data message
      let st1 := if state.currentStep = .hba1c then savePatientData env phone r.1 st else st
      if env.saveFails then
        (st1, errorReply)
      else
        match st1.session with
        | none => (st1, errorReply)
        | some _ =>
          ({ st1 with session := some ⟨state.phone, r.2.1, r.1, now⟩ },
            ⟨r.2.2, r.2.1 = .completed⟩)

/-- src/server.js:1213 `checkOnboardingStatus` — `needsOnboarding` is true
when no Patient document exists or it is not marked completed. -/
def checkOnboardingStatus (st : Store) : Bool :=
  match st.patient with
  | none => true
  | some patient => !patient.onboarding_completed

/-- The webhook dispatch (src/server.js:1860-1883): a text message is routed
to `handleOnboarding` only while `checkOnboardingStatus` reports onboarding
as needed; otherwise it goes to the chat pipeline, which performs no write
to the onboarding session and no write to the onboarding fields of the
Patient (modelled as leaving the store unchanged, reply `none`). -/
def processIncoming (env : Env) (now : Nat) (phone message : String) (st : Store) :
    Store × Option Reply :=
  if checkOnboardingStatus st then
    let r := handleOnboarding env now phone message st
    (r.1, some r.2)
  else
    (st, none)

/-- Fold of `handleOnboarding` over a list of inbound messages, collecting
the replies. -/
def runMessages (env : Env) (now : Nat) (phone : String) :
    List String → Store → Store × List Reply
  | [], st => (st, [])
  | m :: ms, st =>
    let r := handleOnboarding env now phone m st
    let rest := runMessages env now phone ms r.1
    (rest.1, r.2 :: rest.2)

/-- Whether the parser of a step rejects a message (returns the invalid
sentinel `null`); the free-text steps never reject, and for the hba1c step
this is the `parseHbA1c` sentinel, which the source also uses for the
unknown answer. -/
def stepRejects (step : Step) (message : String) : Bool :=
  match step with
  | .language => (parseLanguage message).isNone
  | .name => (parseName message).isNone
  | .age => (parseAge message).isNone
  | .gender => (parseGender message).isNone
  | .emergency_contact => (parsePhone message).isNone
  | .pincode => (parsePincode message).isNone
  | .consent => (parseConsent message).isNone
  | .diabetes_type => (parseDiabetesType message).isNone
  | .duration => (parseDuration message).isNone
  | .medication_type => (parseMedicationType message).isNone
  | .medicine_names => false
  | .diet => (parseDiet message).isNone
  | .comorbidities => false
  | .hba1c => (parseHbA1c message).isNone
  | .completed => false

/-- The original prompt of each step, as re-sent after the generic notice on
a parse failure (the `else` branches of the switch). -/
def promptFor (step : Step) (lang : String) (d : SessionData) : String :=
  match step with
  | .language => MESSAGES_welcome lang
  | .name => MESSAGES_ask_name lang
  | .age => jsReplace (MESSAGES_ask_age lang) namePlaceholder (d.full_name.getD "")
  | .gender => MESSAGES_ask_gender lang
  | .emergency_contact => MESSAGES_ask_emergency lang
  | .pincode => MESSAGES_ask_pincode lang
  | .consent => MESSAGES_ask_consent lang
  | .diabetes_type => MESSAGES_ask_diabetes_type lang
  | .duration => MESSAGES_ask_duration lang
  | .medication_type => MESSAGES_ask_medication lang
  | .medicine_names => MESSAGES_ask_medicine_names lang
  | .diet => MESSAGES_ask_diet lang
  | .comorbidities => MESSAGES_ask_comorbidities lang
  | .hba1c => MESSAGES_ask_hba1c lang
  | .completed => ""

/-! ### Helper lemmas about the parsers -/

/-- A value accepted by `parseHbA1c` lies in the documented range. -/
lemma parseHbA1c_range (s : String) (v : Rat) (h : parseHbA1c s = some v) :
    3 ≤ v ∧ v ≤ 20 := by
  unfold parseHbA1c at h
  repeat' split at h
  all_goals simp_all

/-- `parseMedicineNames` never returns the empty list. -/
lemma parseMedicineNames_ne_nil (s : String) : parseMedicineNames s ≠ [] := by
  intro hnil
  unfold parseMedicineNames at hnil
  dsimp only at hnil
  split at hnil
  · simp at hnil
  · split at hnil
    · simp at hnil
    · next hlen => exact hlen (by simpa using congrArg List.length hnil)

/-- The `(conditions.length > 0 ? conditions : [..])` fallback never yields
the empty list. -/
lemma ite_length_ne_nil (l : List String) : (if l.length > 0 then l else ["None"]) ≠ [] := by
  split
  · next h => exact List.ne_nil_of_length_pos h
  · simp

/-- `parseComorbidities` never returns the empty list. -/
lemma parseComorbidities_ne_nil (s : String) : parseComorbidities s ≠ [] := by
  unfold parseComorbidities
  dsimp only
  split
  · simp
  · exact ite_length_ne_nil _

/-- The keyword scan only produces the five condition tags. -/
lemma comorbidityConditions_subset (lower : List Char) :
    comorbidityConditions lower ⊆ ["None", "BP", "Cholesterol", "Heart", "Kidney", "Thyroid"] := by
  unfold comorbidityConditions
  split_ifs <;> simp_all

/-- Every tag produced by `parseComorbidities` is one of the six condition
tags of the source. -/
lemma parseComorbidities_mem (s : String) :
    ∀ c ∈ parseComorbidities s, c ∈ ["None", "BP", "Cholesterol", "Heart", "Kidney", "Thyroid"] := by
  intro c hc
  unfold parseComorbidities at hc
  dsimp only at hc
  split at hc
  · simp_all
  · split at hc
    · exact comorbidityConditions_subset _ hc
    · simp_all

/-- A `findPin` match is always six characters long. -/
lemma findPin_length (cs : List Char) : ∀ (prev : Option Char) (ds : List Char),
    findPin prev cs = some ds → ds.length = 6 := by
  induction cs with
  | nil => intro prev ds h; simp [findPin] at h
  | cons c cs ih =>
    intro prev ds h
    unfold findPin at h
    split at h
    · next hcond =>
      simp only [Bool.and_eq_true, decide_eq_true_eq] at hcond
      cases h
      simp [hcond.1.1.2]
    · exact ih (some c) ds h

/-- A phone number accepted by `parsePhone` is 13 characters
(`+91` plus ten digits). -/
lemma parsePhone_length (s r : String) (h : parsePhone s = some r) : r.length = 13 := by
  unfold parsePhone at h
  dsimp only at h
  split_ifs at h with h1 h2
  · simp only [Bool.and_eq_true, decide_eq_true_eq] at h1
    cases h
    simp [String.length, h1.1]
  · simp only [Bool.and_eq_true, decide_eq_true_eq] at h2
    cases h
    simp [String.length, h2.1]

/-- A pincode accepted by `parsePincode` is exactly six characters. -/
lemma parsePincode_length (s r : String) (h : parsePincode s = some r) : r.length = 6 := by
  unfold parsePincode at h
  rcases hf : findPin none s.data with _ | ds
  · rw [hf] at h; simp at h
  · rw [hf] at h
    have hr : String.mk ds = r := by simpa using h
    subst hr
    simpa [String.length] using findPin_length s.data none ds hf

/-- `parseLanguage` only produces the three language codes. -/
lemma parseLanguage_codomain (s : String) :
    parseLanguage s = none ∨ parseLanguage s = some "en" ∨ parseLanguage s = some "hi" ∨
      parseLanguage s = some "kn" := by
  unfold parseLanguage
  dsimp only
  split_ifs <;> simp

/-- An age accepted by `parseAge` lies in 1..120. -/
lemma parseAge_range (s : String) (n : Nat) (h : parseAge s = some n) : 1 ≤ n ∧ n ≤ 120 := by
  unfold parseAge at h
  repeat' split at h
  all_goals simp_all
  all_goals omega

/-- A duration accepted by `parseDuration` is at most 100 years. -/
lemma parseDuration_le (s : String) (n : Nat) (h : parseDuration s = some n) : n ≤ 100 := by
  unfold parseDuration at h
  repeat' split at h
  all_goals simp_all
  all_goals omega

/-- `parseGender` only produces the two gender strings. -/
lemma parseGender_codomain (s : String) :
    parseGender s = none ∨ parseGender s = some "Male" ∨ parseGender s = some "Female" := by
  unfold parseGender
  dsimp only
  split_ifs <;> simp

/-- `parseDiabetesType` only produces the three type strings. -/
lemma parseDiabetesType_codomain (s : String) :
    parseDiabetesType s = none ∨ parseDiabetesType s = some "Type 1" ∨
      parseDiabetesType s = some "Type 2" ∨ parseDiabetesType s = some "Gestational" := by
  unfold parseDiabetesType
  dsimp only
  split_ifs <;> simp

/-- `parseMedicationType` only produces the four medication strings. -/
lemma parseMedicationType_codomain (s : String) :
    parseMedicationType s = none ∨ parseMedicationType s = some "Insulin" ∨
      parseMedicationType s = some "Tablets" ∨ parseMedicationType s = some "Both" ∨
      parseMedicationType s = some "None" := by
  unfold parseMedicationType
  dsimp only
  split_ifs <;> simp

/-- `parseDiet` only produces the three diet strings. -/
lemma parseDiet_codomain (s : String) :
    parseDiet s = none ∨ parseDiet s = some "Veg" ∨ parseDiet s = some "Non-Veg" ∨
      parseDiet s = some "Eggetarian" := by
  unfold parseDiet
  dsimp only
  split_ifs <;> simp

/-- `parseName` accepts exactly the messages whose trimmed text is non-empty
and at most 100 characters. -/
lemma parseName_isSome (s : String) :
    ((parseName s).isSome = true) ↔
      (1 ≤ (trimChars s.data).length ∧ (trimChars s.data).length ≤ 100) := by
  unfold parseName
  dsimp only
  split_ifs with h1 h2
  · simp [h1]
  · simp only [Option.isSome_none]
    constructor
    · intro h; cases h
    · intro h; omega
  · simp only [Option.isSome_some, true_iff]
    omega

/-! ### Claim theorems -/

/-- C1 (amended): for every onboarding step other than hba1c, an inbound
message rejected by the step parser (the invalid sentinel) leaves the
session at the same step with the same data (only the timestamp moves) and
returns the generic notice concatenated with the step original prompt,
without completing.  At the hba1c step the claim fails: the handler never
re-prompts there (see the counterexample). -/
theorem C1_reject_reprompts_except_hba1c (now t : Nat) (phone msg : String) (step : Step)
    (d : SessionData) (pat : Option Patient) (hstep : step ≠ Step.hba1c)
    (hrej : stepRejects step msg = true) :
    handleOnboarding envOk now phone msg ⟨some ⟨phone, step, d, t⟩, pat⟩ =
      (⟨some ⟨phone, step, d, now⟩, pat⟩,
        ⟨MESSAGES_error_retry (d.language_pref.getD "en") ++ "\n\n" ++
            promptFor step (d.language_pref.getD "en") d, false⟩) := by
  cases step <;>
    simp_all [handleOnboarding, stepSwitch, stepRejects, promptFor, envOk,
      Option.isNone_iff_eq_none]

/-- C1 witness: a rejected answer at the gender step re-prompts and keeps
the step. -/
theorem C1_witness :
    handleOnboarding envOk 5 "p" "xyz" ⟨some ⟨"p", .gender, {}, 0⟩, none⟩ =
      (⟨some ⟨"p", .gender, {}, 5⟩, none⟩,
        ⟨MESSAGES_error_retry "en" ++ "\n\n" ++ promptFor .gender "en" {}, false⟩) :=
  C1_reject_reprompts_except_hba1c 5 0 "p" "xyz" .gender {} none (by decide) rfl

/-- C1 counterexample: at the hba1c step the parser rejects "hello"
(returns the sentinel), yet the handler does not re-prompt — it completes
onboarding, deletes the session and answers with the completion prompt,
because the sentinel doubles as the legitimate unknown-HbA1c value. -/
theorem C1_counterexample :
    parseHbA1c "hello" = none ∧
    (handleOnboarding envOk 1 "p" "hello" ⟨some ⟨"p", .hba1c, {}, 0⟩, none⟩).2.completed = true ∧
    (handleOnboarding envOk 1 "p" "hello" ⟨some ⟨"p", .hba1c, {}, 0⟩, none⟩).1.session = none ∧
    (handleOnboarding envOk 1 "p" "hello" ⟨some ⟨"p", .hba1c, {}, 0⟩, none⟩).2.response =
      jsReplace (MESSAGES_complete "en") namePlaceholder "friend" :=
  ⟨rfl, rfl, rfl, rfl⟩

/-- Concrete session data of a user at the hba1c step, used by the C2
witness. -/
def dataAtHba1c : SessionData :=
  { language_pref := some "en", full_name := some "Ramesh Kumar", age := some 55,
    gender := some "Male", emergency_contact := some "+919876543210",
    pincode := some "585104", consent_given := some true, diabetes_type := some "Type 2",
    duration_years := some 5, medication_type := some "Insulin",
    current_meds := some ["Metformin"], diet_preference := some "Veg",
    comorbidities := some ["BP"] }

/-- C2: on the terminal hba1c message, the Patient is upserted with
`onboarding_completed = true` and the OnboardingState is deleted as one
logical unit, and no session write re-creates the session afterward.  With
the completed-step early return ("CRITICAL FIX" variant) no session write
happens at all after the deletion; even the duplicated older variant's
`state.save()` after the delete cannot re-create the document — Mongoose
`save()` issues an `updateOne` by `_id` with no upsert and throws on a
deleted document — so there too the commit stands and the session stays
deleted (its only symptom is the generic error reply after the successful
commit, which is what the "CRITICAL FIX" comment removes). -/
theorem C2_commit_delete_unit (now t : Nat) (phone msg : String) (d : SessionData)
    (pat : Option Patient) :
    (handleOnboarding envOk now phone msg ⟨some ⟨phone, .hba1c, d, t⟩, pat⟩ =
      (⟨none, some (buildPatient phone { d with last_hba1c := some (parseHbA1c msg) })⟩,
        ⟨jsReplace (MESSAGES_complete (d.language_pref.getD "en")) namePlaceholder
            (d.full_name.getD "friend"), true⟩)) ∧
    ((buildPatient phone
        { d with last_hba1c := some (parseHbA1c msg) }).onboarding_completed = true) ∧
    ((handleOnboardingDup envOk now phone msg ⟨some ⟨phone, .hba1c, d, t⟩, pat⟩).1.session
        = none) ∧
    ((handleOnboardingDup envOk now phone msg ⟨some ⟨phone, .hba1c, d, t⟩, pat⟩).1.patient
        = some (buildPatient phone { d with last_hba1c := some (parseHbA1c msg) })) := by
  refine ⟨?_, rfl, ?_, ?_⟩ <;>
    simp [handleOnboarding, handleOnboardingDup, stepSwitch, savePatientData, buildPatient,
      envOk]

/-- C2 witness: the concrete terminal message at a populated session. -/
theorem C2_witness :
    (handleOnboardingDup envOk 1 "p" "7.5" ⟨some ⟨"p", .hba1c, dataAtHba1c, 0⟩, none⟩).1.session
        = none ∧
    (handleOnboarding envOk 1 "p" "7.5" ⟨some ⟨"p", .hba1c, dataAtHba1c, 0⟩, none⟩).1.session
        = none :=
  ⟨(C2_commit_delete_unit 1 0 "p" "7.5" dataAtHba1c none).2.2.1,
    by rw [(C2_commit_delete_unit 1 0 "p" "7.5" dataAtHba1c none).1]⟩

/-- C3: from a fresh session at the language step, any sequence of answers
each accepted by the current step parser walks the fixed order language →
name → age → gender → emergency contact → pincode → consent → diabetes type
→ duration → medication type → [medicine names] → diet → comorbidities →
HbA1c and completes in exactly 14 turns (13 when the medication type parses
to "None", skipping medicine names), committing a Patient with
`onboarding_completed = true` whose fields are exactly the parsed answers. -/
theorem C3_canonical_run_completes :
    (∀ (now t : Nat) (phone m1 m2 m3 m4 m5 m6 m7 m8 m9 m10 m11 m12 m13 m14 : String)
        (l nm g ec pc dt mt di : String) (a dy : Nat) (c : Bool),
      parseLanguage m1 = some l → parseName m2 = some nm → parseAge m3 = some a →
      parseGender m4 = some g → parsePhone m5 = some ec → parsePincode m6 = some pc →
      parseConsent m7 = some c → parseDiabetesType m8 = some dt → parseDuration m9 = some dy →
      parseMedicationType m10 = some mt → mt ≠ "None" → parseDiet m12 = some di →
      runMessages envOk now phone [m1, m2, m3, m4, m5, m6, m7, m8, m9, m10, m11, m12, m13, m14]
          ⟨some ⟨phone, .language, {}, t⟩, none⟩ =
        (⟨none, some ⟨phone, l, some nm, some a, some g, some ec, some pc, some c, some dt, dy,
            some mt, parseMedicineNames m11, parseComorbidities m13, parseHbA1c m14, some di,
            true, .completed⟩⟩,
          [⟨MESSAGES_ask_name l, false⟩,
           ⟨jsReplace (MESSAGES_ask_age l) namePlaceholder nm, false⟩,
           ⟨MESSAGES_ask_gender l, false⟩,
           ⟨MESSAGES_ask_emergency l, false⟩,
           ⟨MESSAGES_ask_pincode l, false⟩,
           ⟨MESSAGES_ask_consent l, false⟩,
           ⟨MESSAGES_ask_diabetes_type l, false⟩,
           ⟨MESSAGES_ask_duration l, false⟩,
           ⟨MESSAGES_ask_medication l, false⟩,
           ⟨MESSAGES_ask_medicine_names l, false⟩,
           ⟨MESSAGES_ask_diet l, false⟩,
           ⟨MESSAGES_ask_comorbidities l, false⟩,
           ⟨MESSAGES_ask_hba1c l, false⟩,
           ⟨jsReplace (MESSAGES_complete l) namePlaceholder nm, true⟩])) ∧
    (∀ (now t : Nat) (phone m1 m2 m3 m4 m5 m6 m7 m8 m9 m10 m12 m13 m14 : String)
        (l nm g ec pc dt di : String) (a dy : Nat) (c : Bool),
      parseLanguage m1 = some l → parseName m2 = some nm → parseAge m3 = some a →
      parseGender m4 = some g → parsePhone m5 = some ec → parsePincode m6 = some pc →
      parseConsent m7 = some c → parseDiabetesType m8 = some dt → parseDuration m9 = some dy →
      parseMedicationType m10 = some "None" → parseDiet m12 = some di →
      runMessages envOk now phone [m1, m2, m3, m4, m5, m6, m7, m8, m9, m10, m12, m13, m14]
          ⟨some ⟨phone, .language, {}, t⟩, none⟩ =
        (⟨none, some ⟨phone, l, some nm, some a, some g, some ec, some pc, some c, some dt, dy,
            some "None", ["None"], parseComorbidities m13, parseHbA1c m14, some di,
            true, .completed⟩⟩,
          [⟨MESSAGES_ask_name l, false⟩,
           ⟨jsReplace (MESSAGES_ask_age l) namePlaceholder nm, false⟩,
           ⟨MESSAGES_ask_gender l, false⟩,
           ⟨MESSAGES_ask_emergency l, false⟩,
           ⟨MESSAGES_ask_pincode l, false⟩,
           ⟨MESSAGES_ask_consent l, false⟩,
           ⟨MESSAGES_ask_diabetes_type l, false⟩,
           ⟨MESSAGES_ask_duration l, false⟩,
           ⟨MESSAGES_ask_medication l, false⟩,
           ⟨MESSAGES_ask_diet l, false⟩,
           ⟨MESSAGES_ask_comorbidities l, false⟩,
           ⟨MESSAGES_ask_hba1c l, false⟩,
           ⟨jsReplace (MESSAGES_complete l) namePlaceholder nm, true⟩])) := by
  constructor
  · intro now t phone m1 m2 m3 m4 m5 m6 m7 m8 m9 m10 m11 m12 m13 m14 l nm g ec pc dt mt di
      a dy c h1 h2 h3 h4 h5 h6 h7 h8 h9 h10 hmt h12
    simp [runMessages, handleOnboarding, stepSwitch, envOk, savePatientData, buildPatient,
      h1, h2, h3, h4, h5, h6, h7, h8, h9, h10, hmt, h12]
  · intro now t phone m1 m2 m3 m4 m5 m6 m7 m8 m9 m10 m12 m13 m14 l nm g ec pc dt di
      a dy c h1 h2 h3 h4 h5 h6 h7 h8 h9 h10 h12
    simp [runMessages, handleOnboarding, stepSwitch, envOk, savePatientData, buildPatient,
      h1, h2, h3, h4, h5, h6, h7, h8, h9, h10, h12]

/-- C3 witness: the example scenario of the spec, run concretely on the
14-step branch. -/
theorem C3_witness :
    runMessages envOk 7 "p"
        ["1", "ramesh kumar", "55", "m", "9876543210", "585104", "yes", "2", "5", "1",
          "Metformin", "1", "bp", "7.5"]
        ⟨some ⟨"p", .language, {}, 0⟩, none⟩ =
      (⟨none, some ⟨"p", "en", some "Ramesh Kumar", some 55, some "Male", some "+919876543210",
          some "585104", some true, some "Type 2", 5, some "Insulin", ["Metformin"], ["BP"],
          some (15 / 2 : Rat), some "Veg", true, .completed⟩⟩,
        [⟨MESSAGES_ask_name "en", false⟩,
         ⟨jsReplace (MESSAGES_ask_age "en") namePlaceholder "Ramesh Kumar", false⟩,
         ⟨MESSAGES_ask_gender "en", false⟩,
         ⟨MESSAGES_ask_emergency "en", false⟩,
         ⟨MESSAGES_ask_pincode "en", false⟩,
         ⟨MESSAGES_ask_consent "en", false⟩,
         ⟨MESSAGES_ask_diabetes_type "en", false⟩,
         ⟨MESSAGES_ask_duration "en", false⟩,
         ⟨MESSAGES_ask_medication "en", false⟩,
         ⟨MESSAGES_ask_medicine_names "en", false⟩,
         ⟨MESSAGES_ask_diet "en", false⟩,
         ⟨MESSAGES_ask_comorbidities "en", false⟩,
         ⟨MESSAGES_ask_hba1c "en", false⟩,
         ⟨jsReplace (MESSAGES_complete "en") namePlaceholder "Ramesh Kumar", true⟩]) := by
  with_unfolding_all
    exact C3_canonical_run_completes.1 7 0 "p" "1" "ramesh kumar" "55" "m" "9876543210"
      "585104" "yes" "2" "5" "1" "Metformin" "1" "bp" "7.5" "en" "Ramesh Kumar" "Male"
      "+919876543210" "585104" "Type 2" "Insulin" "Veg" 55 5 true rfl rfl rfl rfl rfl rfl
      rfl rfl rfl rfl (by decide) rfl

/-- C4: replaying the terminal-step message after a first successful commit
is idempotent.  A user with a session at the hba1c step and no committed
profile: the first delivery commits a completed Patient (keyed by the same
phone — one patient slot per user) and deletes the session; the webhook
dispatch routes the replayed second delivery past onboarding (its
`checkOnboardingStatus` sees the completed profile), so the store is
untouched: no second divergent profile and no session left behind. -/
theorem C4_terminal_replay_idempotent (now t : Nat) (phone msg : String) (d : SessionData) :
    ((processIncoming envOk now phone msg ⟨some ⟨phone, .hba1c, d, t⟩, none⟩).1.session
        = none) ∧
    ((processIncoming envOk now phone msg ⟨some ⟨phone, .hba1c, d, t⟩, none⟩).1.patient
        = some (buildPatient phone { d with last_hba1c := some (parseHbA1c msg) })) ∧
    ((buildPatient phone { d with last_hba1c := some (parseHbA1c msg) }).onboarding_completed
        = true) ∧
    (processIncoming envOk now phone msg
        (processIncoming envOk now phone msg ⟨some ⟨phone, .hba1c, d, t⟩, none⟩).1
      = ((processIncoming envOk now phone msg ⟨some ⟨phone, .hba1c, d, t⟩, none⟩).1, none)) := by
  refine ⟨?_, ?_, rfl, ?_⟩ <;>
    simp [processIncoming, checkOnboardingStatus, handleOnboarding, stepSwitch,
      savePatientData, buildPatient, envOk]

/-- C5: the swallowed `catch` of `savePatientData` makes a failed terminal
commit invisible: when the Patient upsert throws at the hba1c step, the
store is left untouched (no profile written, session not deleted) yet the
handler still answers with the completion prompt and `completed = true`,
instead of the generic retry instruction the spec requires.  For contrast,
a failing session save at a non-terminal step does behave as specified:
store unchanged, generic retry reply, not completed. -/
theorem C5_failed_commit_reported_as_success :
    (handleOnboarding ⟨false, false, false, true, false⟩ 1 "p" "7.5"
        ⟨some ⟨"p", .hba1c, {}, 0⟩, none⟩
      = (⟨some ⟨"p", .hba1c, {}, 0⟩, none⟩,
          ⟨jsReplace (MESSAGES_complete "en") namePlaceholder "friend", true⟩)) ∧
    (handleOnboarding ⟨false, false, true, false, false⟩ 1 "p" "m"
        ⟨some ⟨"p", .gender, {}, 0⟩, none⟩
      = (⟨some ⟨"p", .gender, {}, 0⟩, none⟩, errorReply)) := by
  constructor <;> with_unfolding_all rfl

/-- C6: at the medication-type step, an answer parsing to "None" advances
directly to diet with `current_meds = ["None"]` (skipping medicine names),
and an answer parsing to any other valid medication type advances to the
medicine-names step. -/
theorem C6_medication_branch (now t : Nat) (phone m m' v : String) (d d' : SessionData)
    (pat pat' : Option Patient) (hNone : parseMedicationType m = some "None")
    (hv : parseMedicationType m' = some v) (hne : v ≠ "None") :
    (handleOnboarding envOk now phone m ⟨some ⟨phone, .medication_type, d, t⟩, pat⟩ =
      (⟨some ⟨phone, .diet,
          { d with medication_type := some "None", current_meds := some ["None"] }, now⟩, pat⟩,
        ⟨MESSAGES_ask_diet (d.language_pref.getD "en"), false⟩)) ∧
    (handleOnboarding envOk now phone m' ⟨some ⟨phone, .medication_type, d', t⟩, pat'⟩ =
      (⟨some ⟨phone, .medicine_names, { d' with medication_type := some v }, now⟩, pat'⟩,
        ⟨MESSAGES_ask_medicine_names (d'.language_pref.getD "en"), false⟩)) := by
  constructor <;>
    simp [handleOnboarding, stepSwitch, envOk, hNone, hv, hne]

/-- C6 witness: menu answers "4" (None) and "1" (Insulin). -/
theorem C6_witness :
    handleOnboarding envOk 3 "p" "4" ⟨some ⟨"p", .medication_type, {}, 0⟩, none⟩ =
      (⟨some ⟨"p", .diet,
          { medication_type := some "None", current_meds := some ["None"] }, 3⟩, none⟩,
        ⟨MESSAGES_ask_diet "en", false⟩) :=
  (C6_medication_branch 3 0 "p" "4" "1" "Insulin" {} {} none none rfl rfl (by decide)).1

/-- C7 (amended): the free-text medicine-names and comorbidities steps never
block: for every message both advance to the next step storing the (never
empty, never sentinel) parser output.  Comorbidities stores exactly
`["None"]` whenever no recognised keyword occurs; medicine names, however,
stores `["None"]` only for the explicit none/unknown phrasings or when no
usable fragment survives splitting — unmatched gibberish is stored verbatim
as the medicine list (see the counterexample). -/
theorem C7_free_text_always_advances (now t : Nat) (phone msg : String) (d dc : SessionData)
    (pat patc : Option Patient) :
    (handleOnboarding envOk now phone msg ⟨some ⟨phone, .medicine_names, d, t⟩, pat⟩ =
      (⟨some ⟨phone, .diet, { d with current_meds := some (parseMedicineNames msg) }, now⟩, pat⟩,
        ⟨MESSAGES_ask_diet (d.language_pref.getD "en"), false⟩)) ∧
    (handleOnboarding envOk now phone msg ⟨some ⟨phone, .comorbidities, dc, t⟩, patc⟩ =
      (⟨some ⟨phone, .hba1c, { dc with comorbidities := some (parseComorbidities msg) }, now⟩,
          patc⟩,
        ⟨MESSAGES_ask_hba1c (dc.language_pref.getD "en"), false⟩)) ∧
    parseMedicineNames msg ≠ [] ∧ parseComorbidities msg ≠ [] ∧
    (comorbidityConditions (lowerTrim msg) = [] → parseComorbidities msg = ["None"]) := by
  refine ⟨?_, ?_, parseMedicineNames_ne_nil msg, parseComorbidities_ne_nil msg, ?_⟩
  · simp [handleOnboarding, stepSwitch, envOk]
  · simp [handleOnboarding, stepSwitch, envOk]
  · intro hkw
    unfold parseComorbidities
    dsimp only
    split
    · rfl
    · simp [hkw]

/-- C7 witness: keyword-free text at the comorbidities step is stored as
`["None"]`. -/
theorem C7_witness : parseComorbidities "qqq" = ["None"] :=
  (C7_free_text_always_advances 1 0 "p" "qqq" {} {} none none).2.2.2.2 rfl

/-- C7 counterexample: gibberish at the medicine-names step matches no
keyword, yet the stored value is the gibberish itself, not `["None"]` as
the claim states. -/
theorem C7_counterexample :
    parseMedicineNames "xyz" = ["xyz"] ∧
    (handleOnboarding envOk 1 "p" "xyz" ⟨some ⟨"p", .medicine_names, {}, 0⟩, none⟩).1.session =
      some ⟨"p", .diet, { current_meds := some ["xyz"] }, 1⟩ ∧
    (["xyz"] : List String) ≠ ["None"] :=
  ⟨rfl, rfl, by decide⟩

/-- C8 (amended): `parseHbA1c` accepts a decimal number exactly in the
range 3..20; explicit unknown phrasing in any supported language yields
`null` — but that `null` is the one return value the parser has for
unparseable input too, so the unknown answer is not a result distinct from
the invalid sentinel (see the counterexample); out-of-range numbers and
number-free text also yield `null`. -/
theorem C8_hba1c_parser_range_and_unknown (s : String) (v : Rat) :
    (parseHbA1c s = some v → 3 ≤ v ∧ v ≤ 20) ∧
    (strIncludes (lowerTrim s) "पता नहीं" = true → parseHbA1c s = none) ∧
    (strIncludes (lowerTrim s) "don\x27t know" = true → parseHbA1c s = none) ∧
    (strIncludes (lowerTrim s) "ತಿಳಿದಿಲ್ಲ" = true → parseHbA1c s = none) ∧
    parseHbA1c "dk" = none ∧ parseHbA1c "unknown" = none ∧
    parseHbA1c "7.5" = some (15 / 2 : Rat) ∧ parseHbA1c "3" = some 3 ∧
    parseHbA1c "20" = some 20 ∧ parseHbA1c "2.9" = none ∧ parseHbA1c "20.5" = none ∧
    parseHbA1c "hello" = none := by
  refine ⟨parseHbA1c_range s v, ?_, ?_, ?_, rfl, rfl, ?_, ?_, ?_, ?_, ?_, rfl⟩
  · intro h; simp [parseHbA1c, h]
  · intro h; simp [parseHbA1c, h]
  · intro h; simp [parseHbA1c, h]
  all_goals with_unfolding_all rfl

/-- C8 witness: an unknown answer in Hindi maps to `null`, and the accepted
example value 7.5 is within range. -/
theorem C8_witness :
    parseHbA1c "mujhe पता नहीं" = none ∧ (3 ≤ (15 / 2 : Rat) ∧ (15 / 2 : Rat) ≤ 20) :=
  ⟨(C8_hba1c_parser_range_and_unknown "mujhe पता नहीं" 0).2.1 rfl,
    (C8_hba1c_parser_range_and_unknown "7.5" (15 / 2)).1 (by with_unfolding_all rfl)⟩

/-- C8 counterexample: the explicit unknown answer "dk" returns `null`,
which is exactly the invalid sentinel — the same value returned for
unparseable text — so no distinct unknown result exists. -/
theorem C8_counterexample : parseHbA1c "dk" = none ∧ parseHbA1c "hello" = none :=
  ⟨rfl, rfl⟩

/-- C9: every field parser is a total computable function (they are plain
Lean functions, hence deterministic and never throwing), returning either
the invalid sentinel or a typed value: the enumerated parsers only produce
their documented enum strings, the numeric parsers only values in their
documented ranges, the normalised phone is 13 characters, the pincode 6,
and the free-text list parsers always produce a non-empty tag list. -/
theorem C9_parsers_total_and_typed (s : String) :
    (parseLanguage s = none ∨ parseLanguage s = some "en" ∨ parseLanguage s = some "hi" ∨
      parseLanguage s = some "kn") ∧
    ((parseName s).isSome = true ↔
      1 ≤ (trimChars s.data).length ∧ (trimChars s.data).length ≤ 100) ∧
    (∀ n, parseAge s = some n → 1 ≤ n ∧ n ≤ 120) ∧
    (parseGender s = none ∨ parseGender s = some "Male" ∨ parseGender s = some "Female") ∧
    (∀ r, parsePhone s = some r → r.length = 13) ∧
    (∀ r, parsePincode s = some r → r.length = 6) ∧
    (parseConsent s = none ∨ parseConsent s = some true ∨ parseConsent s = some false) ∧
    (parseDiabetesType s = none ∨ parseDiabetesType s = some "Type 1" ∨
      parseDiabetesType s = some "Type 2" ∨ parseDiabetesType s = some "Gestational") ∧
    (∀ n, parseDuration s = some n → n ≤ 100) ∧
    (parseMedicationType s = none ∨ parseMedicationType s = some "Insulin" ∨
      parseMedicationType s = some "Tablets" ∨ parseMedicationType s = some "Both" ∨
      parseMedicationType s = some "None") ∧
    parseMedicineNames s ≠ [] ∧
    (parseDiet s = none ∨ parseDiet s = some "Veg" ∨ parseDiet s = some "Non-Veg" ∨
      parseDiet s = some "Eggetarian") ∧
    parseComorbidities s ≠ [] ∧
    (∀ c ∈ parseComorbidities s,
      c ∈ ["None", "BP", "Cholesterol", "Heart", "Kidney", "Thyroid"]) ∧
    (∀ v, parseHbA1c s = some v → 3 ≤ v ∧ v ≤ 20) := by
  refine ⟨parseLanguage_codomain s, parseName_isSome s, fun n h => parseAge_range s n h,
    parseGender_codomain s, fun r h => parsePhone_length s r h,
    fun r h => parsePincode_length s r h, ?_, parseDiabetesType_codomain s,
    fun n h => parseDuration_le s n h, parseMedicationType_codomain s,
    parseMedicineNames_ne_nil s, parseDiet_codomain s, parseComorbidities_ne_nil s,
    parseComorbidities_mem s, fun v h => parseHbA1c_range s v h⟩
  rcases parseConsent s with _ | b
  · exact Or.inl rfl
  · cases b
    · exact Or.inr (Or.inr rfl)
    · exact Or.inr (Or.inl rfl)

/-- C9 witness: the age parser at "55". -/
theorem C9_witness : 1 ≤ 55 ∧ 55 ≤ 120 :=
  (C9_parsers_total_and_typed "55").2.2.1 55 rfl

/-- C10: an answer parsing to No at the consent step still advances to the
diabetes-type step with `consent_given = false`, and a complete concrete
run refusing consent ends with the session deleted and a committed Patient
carrying `consent_given = false` and `onboarding_completed = true` —
consent refusal never blocks onboarding. -/
theorem C10_consent_refusal_nonblocking :
    (∀ (now t : Nat) (phone msg : String) (d : SessionData) (pat : Option Patient),
      parseConsent msg = some false →
      handleOnboarding envOk now phone msg ⟨some ⟨phone, .consent, d, t⟩, pat⟩ =
        (⟨some ⟨phone, .diabetes_type, { d with consent_given := some false }, now⟩, pat⟩,
          ⟨MESSAGES_ask_diabetes_type (d.language_pref.getD "en"), false⟩)) ∧
    ((runMessages envOk 1 "p"
        ["1", "ramesh kumar", "55", "m", "9876543210", "585104", "2", "2", "5", "4", "1",
          "bp", "7.5"]
        ⟨some ⟨"p", .language, {}, 0⟩, none⟩).1 =
      ⟨none, some ⟨"p", "en", some "Ramesh Kumar", some 55, some "Male", some "+919876543210",
        some "585104", some false, some "Type 2", 5, some "None", ["None"], ["BP"],
        some (15 / 2 : Rat), some "Veg", true, .completed⟩⟩) := by
  constructor
  · intro now t phone msg d pat h
    simp [handleOnboarding, stepSwitch, envOk, h]
  · with_unfolding_all rfl

/-- C10 witness: the menu answer "2" (No) at the consent step advances. -/
theorem C10_witness :
    handleOnboarding envOk 3 "p" "2" ⟨some ⟨"p", .consent, {}, 0⟩, none⟩ =
      (⟨some ⟨"p", .diabetes_type, { consent_given := some false }, 3⟩, none⟩,
        ⟨MESSAGES_ask_diabetes_type "en", false⟩) :=
  C10_consent_refusal_nonblocking.1 3 0 "p" "2" {} none rfl

/-- C4 witness: the replay scenario at a concrete store. -/
theorem C4_witness :
    (processIncoming envOk 2 "p" "7.5" ⟨some ⟨"p", .hba1c, {}, 0⟩, none⟩).1.session = none :=
  (C4_terminal_replay_idempotent 2 0 "p" "7.5" {}).1
